import Mathlib

/-!
Verification development for the movie-catalog application's cross-store
query and benchmarking core (`app.py`, `backend/api/compare_routes.py`).

The Python code is shallowly embedded as follows.

A single `Catalog` value models the seeded data that both storage engines
hold; the relational view and the document view as produced by the import
pipelines (`import.py`, `load_csv_to_mongo.py`) are derived from it, so
"the underlying data is consistent between the two engines" is expressed
by running both strategies against views of one catalog.  Relational
tables reached only through their join keys (movie_genres/genres,
movie_cast/people) are represented by the per-movie lists of joined
values, which is what the SQL joins of `search_postgres` project out of
them; the `ratings` table is kept global because both engines filter it
by movie identifier.  Strings are lists of characters; `ILIKE '%term%'`
and the case-insensitive anchored-nowhere regexes that the code builds
from literal user terms are both embedded as case-insensitive substring
tests, and BSON string comparison (used by the document engine for the
release-date range) is embedded as byte-order lexicographic comparison.
Floating-point latencies, ratings and popularity values are embedded as
rationals; `SELECT ... ORDER BY` and the `$sort` stage are embedded as a
stable insertion sort with the comparator that each engine specifies.
Fallible paths (uncaught exceptions, database errors) are embedded with
`Option`/`Except`-shaped results.
-/

namespace MovieApp

/-! ### Characters, case-insensitive substring match, byte-order comparison -/

/-- Case-folded copy of a character string, as used by `ILIKE` and by
regexes compiled with the `i` option. -/
def lowerChars (s : List Char) : List Char := s.map Char.toLower

/-- Whether `p` occurs at the very start of `s`. -/
def startsList : List Char → List Char → Bool
  | [], _ => true
  | _ :: _, [] => false
  | a :: p, b :: s => a == b && startsList p s

/-- Whether `p` occurs as a contiguous substring of `s`. -/
def containsSub (p s : List Char) : Bool :=
  s.tails.any (fun t => startsList p t)

/-- Case-insensitive substring test: the embedding of both
`column ILIKE '%term%'` and `{"$regex": term, "$options": "i"}` for the
literal (metacharacter-free) terms the application passes. -/
def ciSubstr (p s : List Char) : Bool :=
  containsSub (lowerChars p) (lowerChars s)

/-- Lexicographic byte-order comparison of strings, the order MongoDB
uses when comparing BSON strings (for ASCII date strings, byte order and
code-point order coincide). -/
def lexLeB : List Char → List Char → Bool
  | [], _ => true
  | _ :: _, [] => false
  | a :: s, b :: t =>
    if a.toNat < b.toNat then true
    else if b.toNat < a.toNat then false
    else lexLeB s t

/-! ### Decimal rendering, the embedding of Python f-strings on integers -/

/-- Decimal digits of a natural number, most significant first: the
characters `str(n)` produces for a nonnegative `n`. -/
def natToChars (n : Nat) : List Char :=
  if h : n < 10 then [Char.ofNat (48 + n)]
  else natToChars (n / 10) ++ [Char.ofNat (48 + n % 10)]
  decreasing_by exact Nat.div_lt_self (by omega) (by omega)

/-- The characters `str(n)` produces for an arbitrary Python int. -/
def intToChars (n : Int) : List Char :=
  if n < 0 then '-' :: natToChars (-n).toNat else natToChars n.toNat

/-- Two-digit zero-padded rendering used for the month and day components
of the ISO date strings stored in the document engine. -/
def pad2 (n : Nat) : List Char :=
  if n < 10 then ['0', Char.ofNat (48 + n)] else natToChars n

/-- A calendar date as the relational engine stores it (a parsed `DATE`
whose year `EXTRACT(YEAR ...)` reads off). -/
structure YMD where
  y : Nat
  m : Nat
  d : Nat
deriving DecidableEq

/-- The ISO `YYYY-MM-DD` string under which the same date sits in the
document engine's `release_date` field. -/
def isoChars (dte : YMD) : List Char :=
  natToChars dte.y ++ '-' :: (pad2 dte.m ++ '-' :: pad2 dte.d)

/-- Comma-space joining of a list of names, as both `', '.join(...)` and
`STRING_AGG(..., ', ')` produce. -/
def joinComma : List (List Char) → List Char
  | [] => []
  | [g] => g
  | g :: t => g ++ ',' :: ' ' :: joinComma t

/-! ### Python truthiness on the optional parameters the code tests with
bare `if x:` -/

/-- Truthiness of an optional string: `None` and the empty string are
falsy. -/
def truthyStr : Option (List Char) → Bool
  | none => false
  | some s => !s.isEmpty

/-- Truthiness of an optional integer: `None` and `0` are falsy. -/
def truthyInt : Option Int → Bool
  | none => false
  | some n => n != 0

/-! ### Rational statistics helpers -/

/-- Python `statistics.mean`: the arithmetic mean. -/
def meanQ (l : List ℚ) : ℚ := l.sum / l.length

/-- Python `max(l)` on a nonempty list (0 as a dummy for the empty list, which
the call sites exclude). -/
def maxQ : List ℚ → ℚ
  | [] => 0
  | a :: t => t.foldl max a

/-- Python `min(l)` on a nonempty list (0 as a dummy for the empty list, which
the call sites exclude). -/
def minQ : List ℚ → ℚ
  | [] => 0
  | a :: t => t.foldl min a

/-- Python `sorted(l)`: a stable ascending sort. -/
def sortedQ (l : List ℚ) : List ℚ :=
  l.insertionSort (fun a b => a ≤ b)

/-- Python `statistics.median`: middle element of the sorted list, or the mean
of the two middle elements for an even count. -/
def medianQ (l : List ℚ) : ℚ :=
  let s := sortedQ l
  if l.length % 2 = 1 then s.getD (l.length / 2) 0
  else (s.getD (l.length / 2 - 1) 0 + s.getD (l.length / 2) 0) / 2

/-- Round-half-to-even to an integer, the rounding rule of Python's
built-in `round`. -/
def roundHalfEven (x : ℚ) : Int :=
  if x - ⌊x⌋ < 1/2 then ⌊x⌋
  else if 1/2 < x - ⌊x⌋ then ⌊x⌋ + 1
  else if ⌊x⌋ % 2 = 0 then ⌊x⌋ else ⌊x⌋ + 1

/-- Python `round(x, k)`: round to `k` decimal places, half to even. -/
def roundTo (k : Nat) (x : ℚ) : ℚ :=
  (roundHalfEven (x * 10 ^ k) : ℚ) / 10 ^ k

/-- Python `round(x, 3)` as used for the latency statistics. -/
def round3 (x : ℚ) : ℚ := roundTo 3 x

/-- Python `round(x, 2)` as used for throughput and speedup figures. -/
def round2 (x : ℚ) : ℚ := roundTo 2 x

/-! ### The seeded catalog and the two engines' views of it

`import.py` loads each CSV row into the relational schema (one `title`
column, a parsed `released_date`, junction tables for genres and cast,
a global `ratings` table), while `load_csv_to_mongo.py` loads the same
rows into document collections (`movies` with both `title` and
`original_title` and a raw `release_date` string, one `credits` document
per movie, a `ratings` collection keyed by `movieId`).  `Catalog` holds
the common source data; the two views below derive what each engine
stores from it. -/

/-- One movie of the seeded source data.  `title` is the column the
relational import stores; `originalTitle` is the additional
`original_title` column that only the document import retains.  Genre
names and cast names are the values the relational joins
`movie_genres ⋈ genres` and `movie_cast ⋈ people` reach for this movie. -/
structure MovieRec where
  movieId : Nat
  title : List Char
  originalTitle : List Char
  released : Option YMD
  popularity : Option ℚ
  genres : List (List Char)
  castNames : List (List Char)
deriving DecidableEq

/-- One row of the relational `ratings` table / one document of the
`ratings` collection. -/
structure RatingRec where
  ratingId : Nat
  movieId : Nat
  rating : ℚ
deriving DecidableEq

/-- The seeded data both engines hold. -/
structure Catalog where
  movies : List MovieRec
  ratings : List RatingRec
deriving DecidableEq

/-- The ratings join for one movie: the rows of the global `ratings`
table (or the `$lookup`-joined array) whose movie identifier matches. -/
def ratingsFor (rs : List RatingRec) (mid : Nat) : List RatingRec :=
  rs.filter (fun r => r.movieId == mid)

/-! #### Document-engine collections -/

/-- The `genres` field of a movie document: an array of `{name: ...}`
subdocuments when the import parsed the CSV cell, or some other BSON
shape when it did not (`safe_parse_jsonish` falls back to a raw
string). -/
inductive BsonGenres where
  | garr : List (List Char) → BsonGenres
  | gother : BsonGenres
deriving DecidableEq

/-- The `cast` field of a credits document: an array of subdocuments
with `name` fields, or a flattened raw string when parsing failed
(`search_mongo` probes which shape is stored). -/
inductive BsonCast where
  | carr : List (List Char) → BsonCast
  | cstr : List Char → BsonCast
deriving DecidableEq

/-- A document of the `movies` collection, every field optional as in
BSON. -/
structure MovieDoc where
  id : Option Nat
  title : Option (List Char)
  original_title : Option (List Char)
  release_date : Option (List Char)
  popularity : Option ℚ
  genres : BsonGenres
deriving DecidableEq

/-- A document of the `credits` collection. -/
structure CreditDoc where
  id : Option Nat
  castField : Option BsonCast
deriving DecidableEq

/-- A document of the `ratings` collection (`rating` may be null, since
`to_float` in the loader can produce `None`). -/
structure RatingDoc where
  movieId : Nat
  rating : Option ℚ
deriving DecidableEq

/-- The document collections. -/
structure MongoDb where
  movies : List MovieDoc
  credits : List CreditDoc
  ratings : List RatingDoc
deriving DecidableEq

/-- The movie document the loader stores for a catalog movie. -/
def mongoMovieDoc (m : MovieRec) : MovieDoc :=
  { id := some m.movieId
    title := some m.title
    original_title := some m.originalTitle
    release_date := m.released.map isoChars
    popularity := m.popularity
    genres := .garr m.genres }

/-- The credits document the loader stores for a catalog movie. -/
def mongoCreditDoc (m : MovieRec) : CreditDoc :=
  { id := some m.movieId, castField := some (.carr m.castNames) }

/-- The rating document the loader stores for a catalog rating row. -/
def mongoRatingDoc (r : RatingRec) : RatingDoc :=
  { movieId := r.movieId, rating := some r.rating }

/-- The document engine's view of the catalog. -/
def mongoOf (db : Catalog) : MongoDb :=
  { movies := db.movies.map mongoMovieDoc
    credits := db.movies.map mongoCreditDoc
    ratings := db.ratings.map mongoRatingDoc }

/-! ### The canonical filter both strategies take -/

/-- The parameters of `search_postgres` / `search_mongo` (`None` for a
filter the caller leaves out; the routes also pass `None` for blank
fields). -/
structure SearchFilter where
  title : Option (List Char)
  genre : Option (List Char)
  actor : Option (List Char)
  year_start : Option Int
  year_end : Option Int
  sort_by : List Char
  limit : Nat
deriving DecidableEq

/-- Popularity comparator shared by `ORDER BY m.popularity DESC NULLS
LAST` and the descending `$sort` on `popularity` (BSON sorts null and
missing values after all numbers in descending order). -/
def popGeB (a b : Option ℚ) : Bool :=
  match a, b with
  | some x, some y => decide (y ≤ x)
  | some _, none => true
  | none, some _ => false
  | none, none => true

/-! ### `search_postgres` (app.py lines 194-295)

The dynamically assembled SQL is one `SELECT` over `movies`, with an
unconditional `LEFT JOIN ratings` and unconditional display joins to the
genre tables, plus conditional inner joins to the genre/cast tables when
the corresponding filter is present; it groups by the movie columns,
orders, and limits.  Per movie this means: the movie qualifies when every
active `WHERE` condition is witnessed by some joined row, and the
aggregates are computed over the group's rating rows.  Because the
conditional filter joins replicate every rating row of a movie the same
number of times, `AVG(r.rating)` over the group equals the plain mean of
the movie's ratings (`pg_avg_replicate_invariant` below records this),
and `COUNT(DISTINCT r.rating_id)` equals the number of distinct rating
identifiers. -/

/-- Replicating every sample the same number of times leaves the mean
unchanged.  This is why `AVG(r.rating)` over the grouped join rows —
where the conditional genre/cast filter joins and the display joins
replicate each rating row of a movie uniformly — equals the plain mean
of the movie's ratings, which the per-movie aggregate below computes. -/
theorem pg_avg_replicate_invariant (k : Nat) (l : List ℚ) :
    meanQ (l.flatMap (fun x => List.replicate (k + 1) x)) = meanQ l := by
  have hsum : (l.flatMap (fun x => List.replicate (k + 1) x)).sum = ((k : ℚ) + 1) * l.sum := by
    induction l with
    | nil => simp
    | cons a t ih =>
      rw [List.flatMap_cons, List.sum_append, ih, List.sum_replicate, List.sum_cons,
        nsmul_eq_mul]
      push_cast
      ring
  have hlen : (l.flatMap (fun x => List.replicate (k + 1) x)).length = (k + 1) * l.length := by
    clear hsum
    induction l with
    | nil => simp
    | cons a t ih =>
      rw [List.flatMap_cons, List.length_append, ih, List.length_replicate,
        List.length_cons]
      ring
  unfold meanQ
  rw [hsum, hlen]
  push_cast
  exact mul_div_mul_left _ _ (by positivity : (0 : ℚ) < (k : ℚ) + 1).ne'

/-- The aggregate `COALESCE(AVG(r.rating), 0)` for one movie's group. -/
def pgAvgRating (rs : List RatingRec) (mid : Nat) : ℚ :=
  let l := ratingsFor rs mid
  if l.isEmpty then 0 else meanQ (l.map (fun r => r.rating))

/-- The aggregate `COUNT(DISTINCT r.rating_id)` for one movie's group. -/
def pgNumRatings (rs : List RatingRec) (mid : Nat) : Nat :=
  ((ratingsFor rs mid).map (fun r => r.ratingId)).dedup.length

/-- The assembled `WHERE` clause of `search_postgres`, evaluated for one
movie: each condition is appended only when its parameter is truthy, and
the year range only when both bounds are truthy (`if year_start and
year_end`).  A genre or cast condition holds when some joined row
matches. -/
def pgWhere (f : SearchFilter) (m : MovieRec) : Bool :=
  (if truthyStr f.title then ciSubstr (f.title.getD []) m.title else true) &&
  (if truthyStr f.genre then m.genres.any (fun g => ciSubstr (f.genre.getD []) g) else true) &&
  (if truthyStr f.actor then m.castNames.any (fun c => ciSubstr (f.actor.getD []) c) else true) &&
  (if truthyInt f.year_start && truthyInt f.year_end then
    match m.released with
    | none => false
    | some dte => decide (f.year_start.getD 0 ≤ (dte.y : Int) ∧ (dte.y : Int) ≤ f.year_end.getD 0)
   else true)

/-- The `ORDER BY` comparator: `rating` mode orders by
`avg_rating DESC NULLS LAST, popularity DESC NULLS LAST` (the aggregate
is never null thanks to `COALESCE`), any other mode by
`popularity DESC NULLS LAST`. -/
def pgOrder (f : SearchFilter) (rs : List RatingRec) (a b : MovieRec) : Bool :=
  if f.sort_by = ("rating".data) then
    decide (pgAvgRating rs b.movieId < pgAvgRating rs a.movieId) ||
      (decide (pgAvgRating rs a.movieId = pgAvgRating rs b.movieId) &&
        popGeB a.popularity b.popularity)
  else popGeB a.popularity b.popularity

/-- One dictionary of the list `search_postgres` returns.  The Python
conversions `float(row[3]) if row[3] else 0`, `float(row[4]) if row[4]
else 0`, `row[5] or 0` and `row[6] or ""` map falsy values (SQL `NULL`
or zero) to the defaults shown. -/
structure PgRow where
  movie_id : Nat
  title : List Char
  released_date : Option YMD
  popularity : ℚ
  avg_rating : ℚ
  num_ratings : Nat
  genres : List Char
deriving DecidableEq

/-- Row conversion for `search_postgres`: `STRING_AGG(DISTINCT
g2.genre_name, ', ' ORDER BY g2.genre_name)` renders the distinct genre
names in ascending name order. -/
def pgRowOf (rs : List RatingRec) (m : MovieRec) : PgRow :=
  { movie_id := m.movieId
    title := m.title
    released_date := m.released
    popularity := m.popularity.getD 0
    avg_rating := pgAvgRating rs m.movieId
    num_ratings := pgNumRatings rs m.movieId
    genres := joinComma (m.genres.dedup.insertionSort (fun a b => lexLeB a b = true)) }

/-- The function `search_postgres`: filter, order, limit, convert. -/
def search_postgres (f : SearchFilter) (db : Catalog) : List PgRow :=
  ((((db.movies.filter (pgWhere f)).insertionSort
      (fun a b => pgOrder f db.ratings a b = true)).take f.limit).map (pgRowOf db.ratings))

/-! ### `search_mongo` (app.py lines 298-425) -/

/-- The credits query built for an actor term: `search_mongo` probes the
first document possessing a `cast` field; when that sample's `cast` is an
array it matches on the `cast.name` field path, otherwise it regex-matches
the whole `cast` field (which can only match a string-shaped field). -/
def creditMatches (a : List Char) (castIsArray : Bool) (c : CreditDoc) : Bool :=
  match c.castField with
  | none => false
  | some (.carr names) => castIsArray && names.any (fun n => ciSubstr a n)
  | some (.cstr s) => !castIsArray && ciSubstr a s

/-- The shape probe of `search_mongo`: look at the first credits
document possessing a `cast` field and report whether it is stored as an
array. -/
def castShapeIsArray (credits : List CreditDoc) : Bool :=
  match credits.find? (fun c => c.castField.isSome) with
  | some c => (match c.castField with | some (.carr _) => true | _ => false)
  | none => false

/-- Step 1 of `search_mongo`: resolve an actor term to movie identifiers
through the credits collection, reading at most 500 matching documents
and keeping the `id` of each document that has one. -/
def mongoActorIds (a : List Char) (credits : List CreditDoc) : List Nat :=
  (((credits.filter (creditMatches a (castShapeIsArray credits))).take 500).filterMap
    (fun c => c.id))

/-- The `$match` stage, evaluated for one movie document: title regex
against either title field, `$elemMatch` on the embedded genre names,
release-date string range `"{ys}-01-01" ≤ s ≤ "{ye}-12-31"` when both
bounds are truthy, and the `$in` restriction to the actor's identifiers
when that list is truthy (missing fields never match). -/
def mongoMatch (f : SearchFilter) (actorIds : Option (List Nat)) (d : MovieDoc) : Bool :=
  (if truthyStr f.title then
    (match d.title with | some s => ciSubstr (f.title.getD []) s | none => false) ||
    (match d.original_title with | some s => ciSubstr (f.title.getD []) s | none => false)
   else true) &&
  (if truthyStr f.genre then
    (match d.genres with
     | .garr names => names.any (fun n => ciSubstr (f.genre.getD []) n)
     | .gother => false)
   else true) &&
  (if truthyInt f.year_start && truthyInt f.year_end then
    (match d.release_date with
     | some s =>
       lexLeB (intToChars (f.year_start.getD 0) ++ ("-01-01".data)) s &&
       lexLeB s (intToChars (f.year_end.getD 0) ++ ("-12-31".data))
     | none => false)
   else true) &&
  (match actorIds with
   | some ids =>
     if ids.isEmpty then true
     else (match d.id with | some i => ids.contains i | none => false)
   | none => true)

/-- A movie document after the `$lookup`/`$addFields`/`$project` stages:
the joined ratings array is summarized into `avg_rating` (`$ifNull
[{$avg: ...}, 0]`, where `$avg` averages the numeric entries) and
`num_ratings` (`$size`), and then dropped. -/
structure EnrichedDoc where
  doc : MovieDoc
  avg_rating : ℚ
  num_ratings : Nat
deriving DecidableEq

/-- The `$lookup` (on `id = movieId`) plus `$addFields` computation for
one movie document. -/
def mongoEnrich (ratings : List RatingDoc) (d : MovieDoc) : EnrichedDoc :=
  let joined := ratings.filter (fun r =>
    match d.id with | some i => r.movieId == i | none => false)
  let vals := joined.filterMap (fun r => r.rating)
  { doc := d
    avg_rating := if vals.isEmpty then 0 else meanQ vals
    num_ratings := joined.length }

/-- The `$sort` comparator: `rating` mode `{avg_rating: -1, popularity:
-1}`, any other mode `{popularity: -1}`. -/
def mongoOrder (f : SearchFilter) (a b : EnrichedDoc) : Bool :=
  if f.sort_by = ("rating".data) then
    decide (b.avg_rating < a.avg_rating) ||
      (decide (a.avg_rating = b.avg_rating) && popGeB a.doc.popularity b.doc.popularity)
  else popGeB a.doc.popularity b.doc.popularity

/-- One dictionary of the list `search_mongo` returns (`doc.get("id")`
may be absent, hence optional). -/
structure MongoRow where
  movie_id : Option Nat
  title : List Char
  released_date : Option (List Char)
  popularity : ℚ
  avg_rating : ℚ
  num_ratings : Nat
  genres : List Char
deriving DecidableEq

/-- Row conversion for `search_mongo`: `doc.get("original_title") or
doc.get("title", "")` (a falsy — missing or empty — original title falls
back to `title`), popularity defaulted through truthiness, and the genre
names joined in stored order, or `""` for an unexpected shape. -/
def mongoRowOf (e : EnrichedDoc) : MongoRow :=
  { movie_id := e.doc.id
    title :=
      match e.doc.original_title with
      | some s => if s.isEmpty then e.doc.title.getD [] else s
      | none => e.doc.title.getD []
    released_date := e.doc.release_date
    popularity := e.doc.popularity.getD 0
    avg_rating := e.avg_rating
    num_ratings := e.num_ratings
    genres := match e.doc.genres with | .garr names => joinComma names | .gother => [] }

/-- Steps 2-6 of `search_mongo`: `$match`, `$lookup`/`$addFields`/
`$project`, `$sort`, `$limit`, then the Python row conversion. -/
def mongoPipeline (f : SearchFilter) (actorIds : Option (List Nat)) (db : MongoDb) :
    List MongoRow :=
  (((((db.movies.filter (mongoMatch f actorIds)).map (mongoEnrich db.ratings)).insertionSort
      (fun a b => mongoOrder f a b = true)).take f.limit).map mongoRowOf)

/-- The value of `search_mongo` together with whether the aggregation
pipeline was executed (the actor short-circuit returns before ever
calling `aggregate`). -/
structure MongoSearchResult where
  rows : List MongoRow
  aggregationInvoked : Bool
deriving DecidableEq

/-- The function `search_mongo`: resolve the actor term first when present, return an
empty result immediately when it yields no identifiers, otherwise run
the aggregation pipeline. -/
def search_mongo (f : SearchFilter) (db : MongoDb) : MongoSearchResult :=
  if truthyStr f.actor then
    let ids := mongoActorIds (f.actor.getD []) db.credits
    if ids.isEmpty then { rows := [], aggregationInvoked := false }
    else { rows := mongoPipeline f (some ids) db, aggregationInvoked := true }
  else { rows := mongoPipeline f none db, aggregationInvoked := true }

/-! ### Python `int(...)` on user text -/

/-- Value of a nonempty all-digit character list. -/
def digitsVal : List Char → Option Nat
  | [] => none
  | cs =>
    cs.foldl
      (fun acc c =>
        match acc with
        | none => none
        | some n => if c.isDigit then some (n * 10 + (c.toNat - 48)) else none)
      (some 0)

/-- Python `int(s)` on stripped text: an optional sign followed by digits, or a
raised `ValueError`, embedded as `none`. -/
def pyIntParse (s : List Char) : Option Int :=
  match s with
  | '-' :: rest => (digitsVal rest).map (fun n => -(n : Int))
  | '+' :: rest => (digitsVal rest).map (fun n => (n : Int))
  | _ => (digitsVal s).map (fun n => (n : Int))

/-! ### `calc_metrics` (app.py lines 4826-4841) -/

/-- The per-engine statistics dictionary `calc_metrics` builds. -/
structure Metrics where
  avg_latency_ms : ℚ
  median_latency_ms : ℚ
  p95_latency_ms : ℚ
  min_latency_ms : ℚ
  max_latency_ms : ℚ
  total_time_ms : ℚ
  ops_per_sec : ℚ
  runs : Nat
  warmup : Nat
  result_count : Nat
deriving DecidableEq

/-- The function `calc_metrics(latencies, result_count)`: `None` for an empty sample
list; the p95 entry indexes the sorted list at `int(len * 0.95)` when at
least 20 samples exist and falls back to the maximum otherwise (for the
list lengths the route can produce, `int(n * 0.95)` in floating point
equals `n * 95 / 100` in integer arithmetic). -/
def calc_metrics (warmup_runs : Nat) (latencies : List ℚ) (result_count : Nat) :
    Option Metrics :=
  if latencies.isEmpty then none else
  some
    { avg_latency_ms := round3 (meanQ latencies)
      median_latency_ms := round3 (medianQ latencies)
      p95_latency_ms :=
        if 20 ≤ latencies.length then
          round3 ((sortedQ latencies).getD (latencies.length * 95 / 100) 0)
        else round3 (maxQ latencies)
      min_latency_ms := round3 (minQ latencies)
      max_latency_ms := round3 (maxQ latencies)
      total_time_ms := round3 latencies.sum
      ops_per_sec :=
        if 0 < latencies.sum then
          round2 ((latencies.length : ℚ) / (latencies.sum / 1000))
        else 0
      runs := latencies.length
      warmup := warmup_runs
      result_count := result_count }

/-- Modelled from the spec's glossary: the nearest-rank percentile
indexes the sorted sample list at ordinal rank `⌈P/100 · N⌉`; for the
95th percentile the rank is `⌈95N/100⌉ = (95N + 99) / 100` in integer
arithmetic, i.e. zero-based index one less. -/
def nearestRank95 (l : List ℚ) : ℚ :=
  (sortedQ l).getD ((l.length * 95 + 99) / 100 - 1) 0

/-! ### The comparison reporter of `compare_routes.py` (lines 100-109 and
201-210) -/

/-- Which engine a comparison names. -/
inductive EngineTag where
  | sql
  | nosql
deriving DecidableEq

/-- The `results['comparison']` summary object. -/
structure ComparisonSummary where
  faster : EngineTag
  speedup_factor : ℚ
  difference_ms : ℚ
deriving DecidableEq

/-- The comparison block shared by `compare_top_movies` and
`compare_trending`: `faster = 'sql' if sql_time < nosql_time else
'nosql'` and `speedup = max(...) / min(...)`.  The division is not
guarded: when the smaller time is zero Python raises
`ZeroDivisionError`, which the route's `except` turns into an error
response, embedded as `none`. -/
def compareEngines (sql_time nosql_time : ℚ) : Option ComparisonSummary :=
  let faster := if sql_time < nosql_time then EngineTag.sql else EngineTag.nosql
  if min sql_time nosql_time = 0 then none
  else
    some
      { faster := faster
        speedup_factor := round2 (max sql_time nosql_time / min sql_time nosql_time)
        difference_ms := round2 |sql_time - nosql_time| }

/-! ### The benchmark route `benchmark_run` (app.py lines 4409-4858) -/

/-- The clamp `runs = max(5, min(200, int(data.get('runs', 50))))`. -/
def clampRuns (given : Option Int) : Int :=
  max 5 (min 200 (given.getD 50))

/-- The clamp `limit = max(1, min(200, int(data.get('limit', 50))))`. -/
def clampLimit (given : Option Int) : Int :=
  max 1 (min 200 (given.getD 50))

/-- The benchmark test types, including an unrecognized value. -/
inductive TestType where
  | title
  | genre
  | year_range
  | actor
  | combined
  | deep_fetch
  | unknown : List Char → TestType
deriving DecidableEq

deriving instance DecidableEq for Except

/-- The observable outcome of issuing one query to an engine: either the
elapsed milliseconds and the result count, or a raised error. -/
abbrev EngineCall := Except (List Char) (ℚ × Nat)

/-- State of the relational cursor `pg_cursor` when the route returns. -/
inductive CursorState where
  | untouched
  | leaked
  | released
deriving DecidableEq

/-- How the route's HTTP response is shaped: success with the two
engines' metrics, a 400 validation error, or a 500 from the catch-all
`except`. -/
inductive BenchResponse where
  | ok : Option Metrics → Option Metrics → BenchResponse
  | clientError : List Char → BenchResponse
  | serverError : List Char → BenchResponse
deriving DecidableEq

/-- The route's result paired with the final cursor state. -/
structure BenchOutcome where
  response : BenchResponse
  cursor : CursorState
deriving DecidableEq

/-- A benchmark request together with the behavior of the two engines,
abstracted as the per-call outcomes each engine produces in order
(warm-up calls first, then measured calls). -/
structure BenchInput where
  test_type : TestType
  runs_given : Option Int
  limit_given : Option Int
  year_from_text : Option (List Char)
  year_to_text : Option (List Char)
  movie_id_given : Bool
  pgHasMovies : Bool
  mongoHasMovies : Bool
  pgOutcomes : List EngineCall
  mongoOutcomes : List EngineCall
deriving DecidableEq

/-- Executes a sequence of engine calls in order: the first raised error
aborts the sequence; otherwise the latencies are collected and the last
call's result count is kept (each loop iteration overwrites
`*_result_count`). -/
def runPhase (calls : List EngineCall) : Except (List Char) (List ℚ × Nat) :=
  calls.foldl
    (fun acc c =>
      match acc, c with
      | .error e, _ => .error e
      | .ok _, .error e => .error e
      | .ok (ts, _), .ok (t, cnt) => .ok (ts ++ [t], cnt))
    (.ok ([], 0))

/-- The warm-up-then-measure section shared by every test type, followed
by `pg_cursor.close()` and the metrics calculation.  Any engine error
propagates to the catch-all `except`, which returns a 500 without
closing the cursor. -/
def runBothEngines (runs : Nat) (pgOutcomes mongoOutcomes : List EngineCall) :
    BenchOutcome :=
  match runPhase (pgOutcomes.take 3) with
  | .error e => { response := .serverError e, cursor := .leaked }
  | .ok _ =>
    match runPhase ((pgOutcomes.drop 3).take runs) with
    | .error e => { response := .serverError e, cursor := .leaked }
    | .ok (pgLat, pgCnt) =>
      match runPhase (mongoOutcomes.take 3) with
      | .error e => { response := .serverError e, cursor := .leaked }
      | .ok _ =>
        match runPhase ((mongoOutcomes.drop 3).take runs) with
        | .error e => { response := .serverError e, cursor := .leaked }
        | .ok (mLat, mCnt) =>
          { response := .ok (calc_metrics 3 pgLat pgCnt) (calc_metrics 3 mLat mCnt)
            cursor := .released }

/-- Parsing of the year parameters: `int(data.get('year_from', 1990))`
runs before the cursor is acquired and raises on non-integer text (the
raw value is embedded as text; absent means the default). -/
def parseYearParam (dflt : Int) (txt : Option (List Char)) : Option Int :=
  match txt with
  | none => some dflt
  | some s => pyIntParse s

/-- The route `benchmark_run`: parameter conversion (inside the catch-all `try`,
before the cursor), cursor acquisition, dispatch on the test type with
the `deep_fetch` movie-identifier resolution and its early returns, the
two measurement loops, `pg_cursor.close()`, and the metrics response.
The unknown-test-type branch closes the cursor before its 400; the
`deep_fetch` early 400s and the catch-all 500 do not. -/
def benchmark_run (inp : BenchInput) : BenchOutcome :=
  match parseYearParam 1990 inp.year_from_text, parseYearParam 2000 inp.year_to_text,
      inp.runs_given with
  | none, _, _ => { response := .serverError ("invalid year_from".data), cursor := .untouched }
  | some _, none, _ =>
    { response := .serverError ("invalid year_to".data), cursor := .untouched }
  | some _, some _, _ =>
    let runs := (clampRuns inp.runs_given).toNat
    match inp.test_type with
    | .unknown t =>
      { response := .clientError (("Unknown test_type: ".data) ++ t), cursor := .released }
    | .deep_fetch =>
      if !inp.movie_id_given && !inp.pgHasMovies then
        { response := .clientError ("No movies found in PostgreSQL".data), cursor := .leaked }
      else if !inp.movie_id_given && !inp.mongoHasMovies then
        { response := .clientError ("No movies found in MongoDB".data), cursor := .leaked }
      else runBothEngines runs inp.pgOutcomes inp.mongoOutcomes
    | _ => runBothEngines runs inp.pgOutcomes inp.mongoOutcomes

/-! ### The interactive search routes (`combined_search`, app.py lines
4315-4398, and `user_advanced_search`, lines 442-509)

Both routes share the same parameter handling: stripped query-string
fields, `sort_by` defaulted when unrecognized, and the year conversions
`int(year_start) if year_start else None` executed before — and outside —
the `try` block that guards the search call itself.  A search failure is
caught and flashed (the page renders with an empty movie list); a failed
year conversion is not caught anywhere in the route. -/

/-- How an interactive search request ends: a rendered page carrying the
result rows and an optional flashed search error, or an unhandled
exception that surfaces as a server error page. -/
inductive RouteResult (α : Type) where
  | page : α → Option (List Char) → RouteResult α
  | crash : RouteResult α
deriving DecidableEq

/-- The `combined_search` route on its relational branch (the
`user_advanced_search` route, which always uses the relational engine,
performs the identical steps): validate `sort_by`, convert the year
fields, and run `search_postgres` with blank fields passed as `None` and
`limit=100`. -/
def combined_search (title genre actor year_start year_end sort_by : List Char)
    (db : Catalog) : RouteResult (List PgRow) :=
  let sb := if sort_by = ("popularity".data) ∨ sort_by = ("rating".data)
    then sort_by else ("popularity".data)
  match (if year_start.isEmpty then some none else (pyIntParse year_start).map some),
      (if year_end.isEmpty then some none else (pyIntParse year_end).map some) with
  | some ys, some ye =>
    .page
      (search_postgres
        { title := if title.isEmpty then none else some title
          genre := if genre.isEmpty then none else some genre
          actor := if actor.isEmpty then none else some actor
          year_start := ys
          year_end := ye
          sort_by := sb
          limit := 100 } db)
      none
  | _, _ => .crash

/-! ### Shared fixtures for concrete instances -/

/-- A two-movie catalog: movie 1 is more popular and has one rating,
movie 2 has no ratings. -/
def catTwo : Catalog :=
  { movies :=
      [{ movieId := 1, title := ("A".data), originalTitle := ("A".data),
         released := none, popularity := some 10, genres := [], castNames := [] },
       { movieId := 2, title := ("B".data), originalTitle := ("B".data),
         released := none, popularity := some 5, genres := [], castNames := [] }]
    ratings := [{ ratingId := 1, movieId := 1, rating := 4 }] }

/-- The empty filter: no restrictions, popularity order. -/
def emptyFilter : SearchFilter :=
  { title := none, genre := none, actor := none, year_start := none,
    year_end := none, sort_by := ("popularity".data), limit := 100 }

/-! ### C6 -/

/-- C6: when the actor field is present and resolves to zero movie
identifiers in the credits collection, `search_mongo` returns an empty
list immediately and the ratings-lookup aggregation pipeline is never
invoked.
-/
theorem c6_actor_short_circuit (f : SearchFilter) (db : MongoDb)
    (ha : truthyStr f.actor = true)
    (hz : mongoActorIds (f.actor.getD []) db.credits = []) :
    search_mongo f db = { rows := [], aggregationInvoked := false } := by
  simp [search_mongo, ha, hz]

/-- Witness for C6 at a concrete store and actor term with no matching
credits. -/
theorem c6_actor_short_circuit_witness :
    truthyStr (some ("Zzz".data)) = true ∧
    mongoActorIds ("Zzz".data) (mongoOf catTwo).credits = [] ∧
    search_mongo { emptyFilter with actor := some ("Zzz".data) } (mongoOf catTwo) =
      { rows := [], aggregationInvoked := false } :=
  ⟨by decide, by decide,
    c6_actor_short_circuit { emptyFilter with actor := some ("Zzz".data) } (mongoOf catTwo)
      (by decide) (by decide)⟩

/-! ### C7 -/

/-- C7: the effective iteration count is the supplied value clamped to
5-200 (default 50 when absent) and the effective result limit is the
supplied value clamped to 1-200 (default 50 when absent), regardless of
the supplied value.
-/
theorem c7_clamped_parameters :
    ∀ given : Option Int,
      (5 ≤ clampRuns given ∧ clampRuns given ≤ 200) ∧
      (1 ≤ clampLimit given ∧ clampLimit given ≤ 200) ∧
      clampRuns none = 50 ∧ clampLimit none = 50 ∧
      ∀ v : Int,
        clampRuns (some v) = (if v < 5 then 5 else if 200 < v then 200 else v) ∧
        clampLimit (some v) = (if v < 1 then 1 else if 200 < v then 200 else v) := by
  intro given
  refine ⟨?_, ?_, by decide, by decide, ?_⟩
  · rcases given with _ | v
    · decide
    · constructor
      · simp [clampRuns, Int.max_def, Int.min_def]; split_ifs <;> omega
      · simp [clampRuns, Int.max_def, Int.min_def]; split_ifs <;> omega
  · rcases given with _ | v
    · decide
    · constructor
      · simp [clampLimit, Int.max_def, Int.min_def]; split_ifs <;> omega
      · simp [clampLimit, Int.max_def, Int.min_def]; split_ifs <;> omega
  · intro v
    constructor
    · simp [clampRuns, Int.max_def, Int.min_def]; split_ifs <;> omega
    · simp [clampLimit, Int.max_def, Int.min_def]; split_ifs <;> omega

/-! ### C10 -/

/-- With at most one truthy year bound, the relational `WHERE` clause is
the one built with no year parameters at all. -/
theorem pgWhere_drop_year (f : SearchFilter)
    (h : truthyInt f.year_start = false ∨ truthyInt f.year_end = false) :
    pgWhere f = pgWhere { f with year_start := none, year_end := none } := by
  funext m
  have hb : (truthyInt f.year_start && truthyInt f.year_end) = false := by
    rcases h with h | h <;> simp [h]
  simp [pgWhere, hb, show truthyInt none = false from rfl]

/-- With at most one truthy year bound, the document `$match` stage is
the one built with no year parameters at all. -/
theorem mongoMatch_drop_year (f : SearchFilter) (ids : Option (List Nat))
    (h : truthyInt f.year_start = false ∨ truthyInt f.year_end = false) :
    mongoMatch f ids = mongoMatch { f with year_start := none, year_end := none } ids := by
  funext d
  have hb : (truthyInt f.year_start && truthyInt f.year_end) = false := by
    rcases h with h | h <;> simp [h]
  simp [mongoMatch, hb, show truthyInt none = false from rfl]

/-- C10: in both strategies the year-range restriction is applied only when
`year_start` and `year_end` are both (truthily) provided; when at most
one bound is supplied both `search_postgres` and `search_mongo` behave
exactly as if no year restriction existed at all.
-/
theorem c10_year_range_requires_both_bounds (f : SearchFilter) (db : Catalog)
    (h : truthyInt f.year_start = false ∨ truthyInt f.year_end = false) :
    search_postgres f db =
      search_postgres { f with year_start := none, year_end := none } db ∧
    search_mongo f (mongoOf db) =
      search_mongo { f with year_start := none, year_end := none } (mongoOf db) := by
  constructor
  · simp only [search_postgres, pgWhere_drop_year f h]
    rfl
  · simp only [search_mongo, mongoPipeline, mongoMatch_drop_year f _ h]
    rfl

/-- Witness for C10 at a concrete filter supplying only a start year:
the outputs coincide with the year-free search. -/
theorem c10_year_range_requires_both_bounds_witness :
    truthyInt (some 1990) = true ∧ truthyInt none = false ∧
    (search_postgres { emptyFilter with year_start := some 1990 } catTwo =
        search_postgres
          { { emptyFilter with year_start := some 1990 } with
              year_start := none, year_end := none } catTwo ∧
      search_mongo { emptyFilter with year_start := some 1990 } (mongoOf catTwo) =
        search_mongo
          { { emptyFilter with year_start := some 1990 } with
              year_start := none, year_end := none } (mongoOf catTwo)) :=
  ⟨by decide, by decide,
    c10_year_range_requires_both_bounds { emptyFilter with year_start := some 1990 } catTwo
      (Or.inr (by decide))⟩

/-! ### C2 -/

/-- A title benchmark request whose relational engine answers every call
and whose document engine raises on its second measured call. -/
def benchInputMongoFails : BenchInput :=
  { test_type := .title
    runs_given := some 5
    limit_given := some 50
    year_from_text := none
    year_to_text := none
    movie_id_given := false
    pgHasMovies := true
    mongoHasMovies := true
    pgOutcomes := [.ok (1, 1), .ok (1, 1), .ok (1, 1), .ok (1, 1), .ok (1, 1),
                   .ok (1, 1), .ok (1, 1), .ok (1, 1)]
    mongoOutcomes := [.ok (1, 1), .ok (1, 1), .ok (1, 1), .ok (1, 1), .error ("boom".data)] }

/-- C2 counterexample: with the relational engine healthy (its five measured
calls all succeed) and the document engine raising mid-run, the route
returns only the error — no statistics for the relational engine appear
anywhere in the response, contradicting the claimed partial-failure
tolerance.
-/
theorem c2_counterexample :
    runPhase ((benchInputMongoFails.pgOutcomes.drop 3).take 5) =
      .ok ([1, 1, 1, 1, 1], 1) ∧
    benchmark_run benchInputMongoFails =
      { response := .serverError ("boom".data), cursor := .leaked } := by
  constructor
  · decide
  · decide

/-- C2 amended: the harness has no per-engine failure isolation.  If the
document engine raises during its measured loop while every relational
call succeeded, the whole benchmark run aborts through the catch-all
handler: the response is a single 500 error carrying the raised message,
statistics are returned for neither engine, and the relational cursor is
left open.
-/
theorem c2_amended_all_or_nothing (inp : BenchInput) (e : List Char)
    (htt : inp.test_type = .title ∨ inp.test_type = .genre ∨ inp.test_type = .year_range ∨
      inp.test_type = .actor ∨ inp.test_type = .combined)
    (hyf : parseYearParam 1990 inp.year_from_text = some 1990)
    (hyt : parseYearParam 2000 inp.year_to_text = some 2000)
    (hpgw : ∃ s, runPhase (inp.pgOutcomes.take 3) = .ok s)
    (hpgm : ∃ s, runPhase ((inp.pgOutcomes.drop 3).take (clampRuns inp.runs_given).toNat) = .ok s)
    (hmw : ∃ s, runPhase (inp.mongoOutcomes.take 3) = .ok s)
    (hmm :
      runPhase ((inp.mongoOutcomes.drop 3).take (clampRuns inp.runs_given).toNat) = .error e) :
    benchmark_run inp = { response := .serverError e, cursor := .leaked } := by
  obtain ⟨⟨w1, w2⟩, h1⟩ := hpgw
  obtain ⟨⟨m1, m2⟩, h2⟩ := hpgm
  obtain ⟨⟨v1, v2⟩, h3⟩ := hmw
  have hrun : runBothEngines (clampRuns inp.runs_given).toNat inp.pgOutcomes inp.mongoOutcomes =
      { response := .serverError e, cursor := .leaked } := by
    unfold runBothEngines
    rw [h1, h2, h3, hmm]
  unfold benchmark_run
  rw [hyf, hyt]
  rcases htt with h | h | h | h | h <;> rw [h] <;> exact hrun

/-- Witness for the amended C2 at the concrete failing run. -/
theorem c2_amended_all_or_nothing_witness :
    parseYearParam 1990 benchInputMongoFails.year_from_text = some 1990 ∧
    runPhase
        ((benchInputMongoFails.mongoOutcomes.drop 3).take
          (clampRuns benchInputMongoFails.runs_given).toNat) =
      .error ("boom".data) ∧
    benchmark_run benchInputMongoFails =
      { response := .serverError ("boom".data), cursor := .leaked } :=
  ⟨by decide, by decide,
    c2_amended_all_or_nothing benchInputMongoFails ("boom".data) (Or.inl rfl) (by decide)
      (by decide) ⟨([1, 1, 1], 1), by decide⟩ ⟨([1, 1, 1, 1, 1], 1), by decide⟩
      ⟨([1, 1, 1], 1), by decide⟩ (by decide)⟩

/-! ### C9 -/

/-- A deep-fetch benchmark request with no movie identifier against an
empty relational movies table. -/
def benchInputNoMovies : BenchInput :=
  { benchInputMongoFails with test_type := .deep_fetch, pgHasMovies := false }

/-- C9: the borrowed relational cursor is not released on every exit path.
On the deep-fetch validation failure (no movie found) the route returns
its 400 with the cursor still open, and on an engine-error exit the
catch-all 500 also leaves the cursor open; only the success and
unknown-test-type paths close it.
-/
theorem c9_cursor_leak_on_error_paths :
    benchmark_run benchInputNoMovies =
      { response := .clientError ("No movies found in PostgreSQL".data),
        cursor := .leaked } ∧
    (benchmark_run benchInputMongoFails).cursor = .leaked ∧
    (benchmark_run { benchInputMongoFails with test_type := .unknown ("bogus".data) }).cursor =
      .released := by
  refine ⟨by decide, by decide, by decide⟩

/-! ### C3 -/

/-- Twenty latency samples 1..20 ms. -/
def latTwenty : List ℚ :=
  [1, 2, 3, 4, 5, 6, 7, 8, 9, 10, 11, 12, 13, 14, 15, 16, 17, 18, 19, 20]

/-- C3 counterexample: for the 20-sample list 1..20 the reducer reports
`p95 = 20` (the value at the sorted index `int(20 * 0.95) = 19`), while
the 95th-nearest-rank value of the sorted list is the 19th smallest,
`19`; so for sample counts that are multiples of 20 the claimed
nearest-rank behavior fails.
-/
theorem c3_counterexample :
    (calc_metrics 3 latTwenty 7).map (fun m => m.p95_latency_ms) = some 20 ∧
    nearestRank95 latTwenty = 19 ∧ (20 : ℚ) ≠ 19 := by
  refine ⟨?_, by decide, by decide⟩
  have hs : sortedQ latTwenty = latTwenty := by decide
  have hlen : latTwenty.length = 20 := by decide
  simp only [calc_metrics, hs, hlen]
  norm_num [latTwenty, round3, roundTo, roundHalfEven]

/-- C3 amended: for fewer than 20 samples the reported p95 equals the
reported maximum; for at least 20 samples it is the sorted sample at
zero-based index `n * 95 / 100`, which is the 95th-nearest-rank value
whenever `n` is not a multiple of 20, and the value one rank above the
nearest rank when `n` is a multiple of 20.
-/
theorem c3_amended_p95 (lat : List ℚ) (rc w : Nat) (hne : lat ≠ []) :
    ∃ m, calc_metrics w lat rc = some m ∧
      (lat.length < 20 → m.p95_latency_ms = m.max_latency_ms) ∧
      (20 ≤ lat.length → lat.length % 20 ≠ 0 →
        m.p95_latency_ms = round3 (nearestRank95 lat)) ∧
      (20 ≤ lat.length → lat.length % 20 = 0 →
        m.p95_latency_ms =
          round3 ((sortedQ lat).getD ((lat.length * 95 + 99) / 100 - 1 + 1) 0)) := by
  have hO : lat.isEmpty = false := by
    cases lat with
    | nil => exact absurd rfl hne
    | cons a t => rfl
  refine ⟨_, by rw [calc_metrics, hO]; rfl, ?_, ?_, ?_⟩
  · intro hlt
    have : ¬ 20 ≤ lat.length := by omega
    simp [this]
  · intro hge hmod
    have hidx : lat.length * 95 / 100 = (lat.length * 95 + 99) / 100 - 1 := by
      obtain ⟨q, r, hrlt, hn⟩ : ∃ q r, r < 20 ∧ lat.length = 20 * q + r :=
        ⟨lat.length / 20, lat.length % 20, Nat.mod_lt _ (by norm_num),
          (Nat.div_add_mod _ _).symm⟩
      rw [hn]
      have hr1 : 1 ≤ r := by omega
      interval_cases r <;> omega
    simp [hge, nearestRank95, hidx]
  · intro hge hmod
    have hidx : lat.length * 95 / 100 = (lat.length * 95 + 99) / 100 - 1 + 1 := by omega
    simp [hge, hidx]

/-- Witness for the amended C3 at the concrete 20-sample list. -/
theorem c3_amended_p95_witness :
    latTwenty ≠ [] ∧
    ∃ m, calc_metrics 3 latTwenty 7 = some m ∧
      (latTwenty.length < 20 → m.p95_latency_ms = m.max_latency_ms) ∧
      (20 ≤ latTwenty.length → latTwenty.length % 20 ≠ 0 →
        m.p95_latency_ms = round3 (nearestRank95 latTwenty)) ∧
      (20 ≤ latTwenty.length → latTwenty.length % 20 = 0 →
        m.p95_latency_ms =
          round3 ((sortedQ latTwenty).getD ((latTwenty.length * 95 + 99) / 100 - 1 + 1) 0)) :=
  ⟨by decide, c3_amended_p95 latTwenty 7 3 (by decide)⟩

/-! ### C4 -/

/-- C4 counterexample: with both engine times zero the comparison block does
not produce `speedupFactor = 1.0`; the unguarded `max/min` division
raises `ZeroDivisionError` and the route answers with its error
response, embedded as `none`.
-/
theorem c4_counterexample : compareEngines 0 0 = none := by decide

/-- C4 amended: for positive engine times the reporter names as faster the
engine with the strictly lower time (a tie names the document engine),
and reports `speedupFactor = round(max/min, 2)`, which is `1.0` for
equal times; but the division is unguarded, so a zero smaller time
raises a division-by-zero error instead of yielding `1.0`.
-/
theorem c4_amended_compare (a b : ℚ) (ha : 0 < a) (hb : 0 < b) :
    ∃ c, compareEngines a b = some c ∧
      (a < b → c.faster = EngineTag.sql) ∧
      (b < a → c.faster = EngineTag.nosql) ∧
      (a = b → c.faster = EngineTag.nosql ∧ c.speedup_factor = 1) ∧
      c.speedup_factor = round2 (max a b / min a b) := by
  have hmin : min a b ≠ 0 := by
    have : 0 < min a b := lt_min ha hb
    exact ne_of_gt this
  refine ⟨_, by rw [compareEngines]; rw [if_neg hmin], ?_, ?_, ?_, rfl⟩
  · intro h; simp [h]
  · intro h
    have : ¬ a < b := not_lt_of_gt h
    simp [this]
  · intro h
    subst h
    constructor
    · simp
    · have h1 : max a a / min a a = 1 := by
        rw [max_self, min_self, div_self (ne_of_gt ha)]
      rw [h1]
      norm_num [round2, roundTo, roundHalfEven]

/-- Witness for the amended C4 at the spec's example times 10 ms and
30 ms (the relational engine is named faster with a threefold speedup
because the conclusion's `round2 (30/10)` is `3`). -/
theorem c4_amended_compare_witness :
    (0 : ℚ) < 10 ∧ (0 : ℚ) < 30 ∧
    (∃ c, compareEngines 10 30 = some c ∧
      ((10 : ℚ) < 30 → c.faster = EngineTag.sql) ∧
      ((30 : ℚ) < 10 → c.faster = EngineTag.nosql) ∧
      ((10 : ℚ) = 30 → c.faster = EngineTag.nosql ∧ c.speedup_factor = 1) ∧
      c.speedup_factor = round2 (max 10 30 / min 10 30)) :=
  ⟨by decide, by decide, c4_amended_compare 10 30 (by decide) (by decide)⟩

/-! ### C8 -/

/-- C8 counterexample: on the interactive search path the year text `"abc"`
is not treated as "no year filter" — the route crashes with an uncaught
`ValueError` — while the same request with a blank year field does run
the search without a year restriction.
-/
theorem c8_counterexample :
    combined_search [] [] [] ("abc".data) [] ("popularity".data)
      { movies := [], ratings := [] } = .crash ∧
    combined_search [] [] [] [] [] ("popularity".data)
      { movies := [], ratings := [] } = .page [] none := by
  exact ⟨by decide, by decide⟩

/-- C8 amended: on the interactive search path only an empty year field is
treated as "no year filter"; non-empty non-integer year text raises an
uncaught conversion error (a server error page), because the `int(...)`
conversion runs outside the route's `try` block.  The benchmark path
also rejects invalid year text, through its catch-all handler's 500
response.
-/
theorem c8_amended_year_text (t g a ys ye sb : List Char) (db : Catalog) :
    (ys ≠ [] → pyIntParse ys = none →
      combined_search t g a ys ye sb db = .crash) ∧
    (ys = [] → ye = [] →
      combined_search t g a ys ye sb db =
        .page
          (search_postgres
            { title := if t.isEmpty then none else some t
              genre := if g.isEmpty then none else some g
              actor := if a.isEmpty then none else some a
              year_start := none
              year_end := none
              sort_by := if sb = ("popularity".data) ∨ sb = ("rating".data)
                then sb else ("popularity".data)
              limit := 100 } db)
          none) ∧
    (∀ inp : BenchInput, inp.year_from_text = some ys → pyIntParse ys = none →
      benchmark_run inp =
        { response := .serverError ("invalid year_from".data), cursor := .untouched }) := by
  refine ⟨?_, ?_, ?_⟩
  · intro hne hparse
    have hE : ys.isEmpty = false := by
      cases ys with
      | nil => exact absurd rfl hne
      | cons c t => rfl
    simp [combined_search, hE, hparse]
  · intro h1 h2
    subst h1; subst h2
    simp [combined_search]
  · intro inp hraw hparse
    unfold benchmark_run
    rw [show parseYearParam 1990 inp.year_from_text = none by
      rw [hraw]; simp [parseYearParam, hparse]]

/-- Witness for the amended C8 at the year text `"abc"`. -/
theorem c8_amended_year_text_witness :
    (("abc".data) ≠ [] ∧ pyIntParse ("abc".data) = none) ∧
    combined_search [] [] [] ("abc".data) [] ("rating".data)
      { movies := [], ratings := [] } = .crash :=
  ⟨⟨by decide, by decide⟩,
    (c8_amended_year_text [] [] [] ("abc".data) [] ("rating".data)
        { movies := [], ratings := [] }).1 (by decide) (by decide)⟩

/-! ### C5: helper lemmas on the rating aggregates -/

/-- The mean of a list of nonnegative rationals is nonnegative. -/
theorem meanQ_nonneg (l : List ℚ) (h : ∀ x ∈ l, 0 ≤ x) : 0 ≤ meanQ l := by
  unfold meanQ
  exact div_nonneg (List.sum_nonneg h) (by positivity)

/-- The aggregate `COALESCE(AVG(...), 0)` is nonnegative when every stored rating is. -/
theorem pgAvgRating_nonneg (rs : List RatingRec) (mid : Nat)
    (h : ∀ r ∈ rs, 0 ≤ r.rating) : 0 ≤ pgAvgRating rs mid := by
  unfold pgAvgRating
  dsimp only
  split
  · exact le_refl 0
  · refine meanQ_nonneg _ ?_
    intro x hx
    obtain ⟨r, hr, rfl⟩ := List.mem_map.mp hx
    exact h r (List.mem_of_mem_filter hr)

/-- A movie with no matching ratings aggregates to zero. -/
theorem pgAvgRating_of_empty (rs : List RatingRec) (mid : Nat)
    (h : ratingsFor rs mid = []) : pgAvgRating rs mid = 0 := by
  unfold pgAvgRating
  rw [h]
  rfl

/-- A movie with no matching ratings counts zero distinct ratings. -/
theorem pgNumRatings_of_empty (rs : List RatingRec) (mid : Nat)
    (h : ratingsFor rs mid = []) : pgNumRatings rs mid = 0 := by
  unfold pgNumRatings
  rw [h]
  rfl

/-- The `$lookup`/`$addFields` summary computed over the loader's view
of the catalog coincides with the relational aggregates: the joined
array is the movie's rating rows, its average-or-zero is
`COALESCE(AVG(...), 0)` and its size is the row count. -/
theorem mongoEnrich_of_catalog (db : Catalog) (m : MovieRec) :
    mongoEnrich (mongoOf db).ratings (mongoMovieDoc m) =
      { doc := mongoMovieDoc m
        avg_rating := pgAvgRating db.ratings m.movieId
        num_ratings := (ratingsFor db.ratings m.movieId).length } := by
  unfold mongoEnrich mongoOf
  have hjoin :
      (db.ratings.map mongoRatingDoc).filter
          (fun r => match (mongoMovieDoc m).id with
            | some i => r.movieId == i
            | none => false) =
        (ratingsFor db.ratings m.movieId).map mongoRatingDoc := by
    rw [List.filter_map]
    rfl
  simp only [hjoin]
  have hvals :
      ((ratingsFor db.ratings m.movieId).map mongoRatingDoc).filterMap (fun r => r.rating) =
        (ratingsFor db.ratings m.movieId).map (fun r => r.rating) := by
    rw [List.filterMap_map]
    rw [show ((fun (r : RatingDoc) => r.rating) ∘ mongoRatingDoc) =
        (some ∘ (fun (r : RatingRec) => r.rating)) from rfl]
    rw [List.filterMap_eq_map]
  simp only [hvals]
  unfold pgAvgRating
  have hlen : (((ratingsFor db.ratings m.movieId).map (fun r => r.rating)).isEmpty) =
      ((ratingsFor db.ratings m.movieId).isEmpty) := by
    cases ratingsFor db.ratings m.movieId <;> rfl
  simp only [hlen, List.length_map]

/-- The average the document pipeline attaches is nonnegative whenever
every stored (non-null) rating value is. -/
theorem mongoEnrich_avg_nonneg (R : List RatingDoc) (d : MovieDoc)
    (h : ∀ r ∈ R, ∀ q, r.rating = some q → 0 ≤ q) :
    0 ≤ (mongoEnrich R d).avg_rating := by
  unfold mongoEnrich
  dsimp only
  split
  · exact le_refl 0
  · refine meanQ_nonneg _ ?_
    intro x hx
    obtain ⟨r, hr, hrx⟩ := List.mem_filterMap.mp hx
    exact h r (List.mem_of_mem_filter hr) x hrx

/-- The document-side search only ever returns rows converted from
enriched documents of the reached pipeline (whatever identifier
restriction the actor step produced). -/
theorem search_mongo_rows_cases (f : SearchFilter) (db : MongoDb) :
    (search_mongo f db).rows = [] ∨
    ∃ idsOpt, (search_mongo f db).rows = mongoPipeline f idsOpt db := by
  unfold search_mongo
  by_cases ha : truthyStr f.actor
  · simp only [ha, if_true]
    by_cases hz : (mongoActorIds (f.actor.getD []) db.credits).isEmpty
    · simp [hz]
    · simp only [hz]
      exact Or.inr ⟨some (mongoActorIds (f.actor.getD []) db.credits), by simp [hz]⟩
  · simp only [ha]
    exact Or.inr ⟨none, by simp⟩

/-- A qualifying movie within the limit always contributes its row to
the relational output. -/
theorem pg_row_appears (f : SearchFilter) (db : Catalog) (m : MovieRec)
    (hm : m ∈ db.movies) (hq : pgWhere f m = true)
    (hlim : (db.movies.filter (pgWhere f)).length ≤ f.limit) :
    pgRowOf db.ratings m ∈ search_postgres f db := by
  unfold search_postgres
  have hmf : m ∈ db.movies.filter (pgWhere f) := List.mem_filter.mpr ⟨hm, hq⟩
  have hms : m ∈ (db.movies.filter (pgWhere f)).insertionSort
      (fun a b => pgOrder f db.ratings a b = true) :=
    (List.mem_insertionSort _).mpr hmf
  have hlen : ((db.movies.filter (pgWhere f)).insertionSort
      (fun a b => pgOrder f db.ratings a b = true)).length ≤ f.limit := by
    rw [List.length_insertionSort]; exact hlim
  rw [List.take_of_length_le hlen]
  exact List.mem_map_of_mem _ hms

/-- A matching document within the limit always contributes its row to
the pipeline output. -/
theorem mongo_row_appears (f : SearchFilter) (idsOpt : Option (List Nat)) (db : MongoDb)
    (d : MovieDoc) (hd : d ∈ db.movies) (hq : mongoMatch f idsOpt d = true)
    (hlim : (db.movies.filter (mongoMatch f idsOpt)).length ≤ f.limit) :
    mongoRowOf (mongoEnrich db.ratings d) ∈ mongoPipeline f idsOpt db := by
  unfold mongoPipeline
  have hdf : d ∈ db.movies.filter (mongoMatch f idsOpt) := List.mem_filter.mpr ⟨hd, hq⟩
  have hde : mongoEnrich db.ratings d ∈
      (db.movies.filter (mongoMatch f idsOpt)).map (mongoEnrich db.ratings) :=
    List.mem_map_of_mem _ hdf
  have hds : mongoEnrich db.ratings d ∈
      ((db.movies.filter (mongoMatch f idsOpt)).map (mongoEnrich db.ratings)).insertionSort
        (fun a b => mongoOrder f a b = true) :=
    (List.mem_insertionSort _).mpr hde
  have hlen : (((db.movies.filter (mongoMatch f idsOpt)).map
      (mongoEnrich db.ratings)).insertionSort
        (fun a b => mongoOrder f a b = true)).length ≤ f.limit := by
    rw [List.length_insertionSort, List.length_map]; exact hlim
  rw [List.take_of_length_le hlen]
  exact List.mem_map_of_mem _ hds

/-! ### C5 -/

/-- The zero-rating movie of `catTwo`. -/
def movieNoRatings : MovieRec :=
  { movieId := 2, title := ("B".data), originalTitle := ("B".data),
    released := none, popularity := some 5, genres := [], castNames := [] }

/-- The empty filter with a result limit of one. -/
def limitOneFilter : SearchFilter := { emptyFilter with limit := 1 }

/-- C5 counterexample: movie 2 of `catTwo` has zero ratings and matches the
(empty) filter in both engines, yet with `limit = 1` neither strategy's
output contains it — the more popular movie 1 fills the single slot — so
"a movie with zero ratings that matches the filter still appears in the
output of both strategies" fails as stated.
-/
theorem c5_counterexample :
    movieNoRatings ∈ catTwo.movies ∧
    pgWhere limitOneFilter movieNoRatings = true ∧
    mongoMatch limitOneFilter none (mongoMovieDoc movieNoRatings) = true ∧
    ratingsFor catTwo.ratings 2 = [] ∧
    (search_postgres limitOneFilter catTwo).map (fun r => r.movie_id) = [1] ∧
    (search_mongo limitOneFilter (mongoOf catTwo)).rows.map (fun r => r.movie_id) =
      [some 1] := by
  refine ⟨by decide, by decide, by decide, by decide, by decide, by decide⟩

/-- C5 amended: every row either strategy produces carries a nonnegative
`avg_rating` (given nonnegative stored ratings) and a nonnegative
`num_ratings`, with neither field ever absent; and a movie with zero
ratings that matches the reached query still appears — with
`avg_rating = 0` and `num_ratings = 0` — provided the number of
qualifying movies does not exceed the result limit (a smaller limit cuts
rows by sort position, not by rating count).
-/
theorem c5_amended_rating_fields (f : SearchFilter) (db : Catalog)
    (hnn : ∀ r ∈ db.ratings, 0 ≤ r.rating) :
    (∀ row ∈ search_postgres f db, 0 ≤ row.avg_rating ∧ 0 ≤ row.num_ratings) ∧
    (∀ row ∈ (search_mongo f (mongoOf db)).rows, 0 ≤ row.avg_rating ∧ 0 ≤ row.num_ratings) ∧
    (∀ m ∈ db.movies, pgWhere f m = true →
      (db.movies.filter (pgWhere f)).length ≤ f.limit →
      ratingsFor db.ratings m.movieId = [] →
      ∃ row ∈ search_postgres f db,
        row.movie_id = m.movieId ∧ row.avg_rating = 0 ∧ row.num_ratings = 0) ∧
    (∀ (idsOpt : Option (List Nat)), ∀ m ∈ db.movies,
      mongoMatch f idsOpt (mongoMovieDoc m) = true →
      ((mongoOf db).movies.filter (mongoMatch f idsOpt)).length ≤ f.limit →
      ratingsFor db.ratings m.movieId = [] →
      ∃ row ∈ mongoPipeline f idsOpt (mongoOf db),
        row.movie_id = some m.movieId ∧ row.avg_rating = 0 ∧ row.num_ratings = 0) ∧
    (truthyStr f.actor = false →
      (search_mongo f (mongoOf db)).rows = mongoPipeline f none (mongoOf db)) := by
  have hRnn : ∀ rd ∈ (mongoOf db).ratings, ∀ q, rd.rating = some q → 0 ≤ q := by
    intro rd hrd q hq
    obtain ⟨r, hr, rfl⟩ := List.mem_map.mp hrd
    cases hq
    exact hnn r hr
  refine ⟨?_, ?_, ?_, ?_, ?_⟩
  · intro row hrow
    unfold search_postgres at hrow
    obtain ⟨m, _hm, rfl⟩ := List.mem_map.mp hrow
    exact ⟨pgAvgRating_nonneg db.ratings m.movieId hnn, Nat.zero_le _⟩
  · intro row hrow
    rcases search_mongo_rows_cases f (mongoOf db) with hcase | ⟨idsOpt, hcase⟩
    · rw [hcase] at hrow; cases hrow
    · rw [hcase] at hrow
      unfold mongoPipeline at hrow
      obtain ⟨e, he, rfl⟩ := List.mem_map.mp hrow
      have he2 := List.mem_of_mem_take he
      have he3 := (List.mem_insertionSort _).mp he2
      obtain ⟨d, _hd, rfl⟩ := List.mem_map.mp he3
      exact ⟨mongoEnrich_avg_nonneg _ d hRnn, Nat.zero_le _⟩
  · intro m hm hq hlim hzero
    refine ⟨pgRowOf db.ratings m, pg_row_appears f db m hm hq hlim, rfl,
      pgAvgRating_of_empty db.ratings m.movieId hzero,
      pgNumRatings_of_empty db.ratings m.movieId hzero⟩
  · intro idsOpt m hm hq hlim hzero
    have hd : mongoMovieDoc m ∈ (mongoOf db).movies := List.mem_map_of_mem _ hm
    refine ⟨mongoRowOf (mongoEnrich (mongoOf db).ratings (mongoMovieDoc m)),
      mongo_row_appears f idsOpt (mongoOf db) (mongoMovieDoc m) hd hq hlim, ?_⟩
    rw [mongoEnrich_of_catalog db m, hzero,
      pgAvgRating_of_empty db.ratings m.movieId hzero]
    exact ⟨rfl, rfl, rfl⟩
  · intro ha
    unfold search_mongo
    rw [ha]
    rfl

/-- Witness for the amended C5: in `catTwo` under the empty filter
(limit 100) the zero-rating movie 2 appears in both outputs with zero
aggregates, and every produced row has nonnegative rating fields. -/
theorem c5_amended_rating_fields_witness :
    (∀ r ∈ catTwo.ratings, 0 ≤ r.rating) ∧
    ((∀ row ∈ search_postgres emptyFilter catTwo,
        0 ≤ row.avg_rating ∧ 0 ≤ row.num_ratings) ∧
      (∀ row ∈ (search_mongo emptyFilter (mongoOf catTwo)).rows,
        0 ≤ row.avg_rating ∧ 0 ≤ row.num_ratings) ∧
      (∀ m ∈ catTwo.movies, pgWhere emptyFilter m = true →
        (catTwo.movies.filter (pgWhere emptyFilter)).length ≤ emptyFilter.limit →
        ratingsFor catTwo.ratings m.movieId = [] →
        ∃ row ∈ search_postgres emptyFilter catTwo,
          row.movie_id = m.movieId ∧ row.avg_rating = 0 ∧ row.num_ratings = 0) ∧
      (∀ (idsOpt : Option (List Nat)), ∀ m ∈ catTwo.movies,
        mongoMatch emptyFilter idsOpt (mongoMovieDoc m) = true →
        ((mongoOf catTwo).movies.filter (mongoMatch emptyFilter idsOpt)).length ≤
          emptyFilter.limit →
        ratingsFor catTwo.ratings m.movieId = [] →
        ∃ row ∈ mongoPipeline emptyFilter idsOpt (mongoOf catTwo),
          row.movie_id = some m.movieId ∧ row.avg_rating = 0 ∧ row.num_ratings = 0) ∧
      (truthyStr emptyFilter.actor = false →
        (search_mongo emptyFilter (mongoOf catTwo)).rows =
          mongoPipeline emptyFilter none (mongoOf catTwo))) :=
  ⟨by decide, c5_amended_rating_fields emptyFilter catTwo (by decide)⟩

/-! ### C1: byte-order comparison of rendered dates versus numeric years

The document engine compares the stored `YYYY-MM-DD` strings with the
rendered bound strings `"{year}-01-01"` / `"{year}-12-31"` in BSON byte
order, while the relational engine compares extracted numeric years.
The lemmas below show the two agree for four-digit years and valid
months/days. -/

theorem digit_toNat (a : Nat) (h : a ≤ 9) : (Char.ofNat (48 + a)).toNat = 48 + a := by
  interval_cases a <;> decide

theorem lexLeB_cons_of_lt {a b : Char} (h : a.toNat < b.toNat) (s t : List Char) :
    lexLeB (a :: s) (b :: t) = true := by
  simp only [lexLeB]
  rw [if_pos h]

theorem lexLeB_cons_of_gt {a b : Char} (h : b.toNat < a.toNat) (s t : List Char) :
    lexLeB (a :: s) (b :: t) = false := by
  simp only [lexLeB]
  rw [if_neg (by omega), if_pos h]

theorem lexLeB_cons_self (a : Char) (s t : List Char) :
    lexLeB (a :: s) (a :: t) = lexLeB s t := by
  simp only [lexLeB]
  rw [if_neg (lt_irrefl _), if_neg (lt_irrefl _)]

theorem natToChars_eq_small (n : Nat) (h : n < 10) : natToChars n = [Char.ofNat (48 + n)] := by
  conv_lhs => unfold natToChars
  rw [dif_pos h]

theorem natToChars_eq_big (n : Nat) (h : ¬ n < 10) :
    natToChars n = natToChars (n / 10) ++ [Char.ofNat (48 + n % 10)] := by
  conv_lhs => unfold natToChars
  rw [dif_neg h]

theorem natToChars_two (n : Nat) (h1 : 10 ≤ n) (h2 : n ≤ 99) :
    natToChars n = [Char.ofNat (48 + n / 10), Char.ofNat (48 + n % 10)] := by
  rw [natToChars_eq_big n (by omega), natToChars_eq_small (n / 10) (by omega)]
  rfl

theorem natToChars_four (n : Nat) (h1 : 1000 ≤ n) (h2 : n ≤ 9999) :
    natToChars n =
      [Char.ofNat (48 + n / 1000), Char.ofNat (48 + n / 100 % 10),
        Char.ofNat (48 + n / 10 % 10), Char.ofNat (48 + n % 10)] := by
  rw [natToChars_eq_big n (by omega), natToChars_eq_big (n / 10) (by omega),
    show n / 10 / 10 = n / 100 from by omega,
    natToChars_eq_big (n / 100) (by omega),
    show n / 100 / 10 = n / 1000 from by omega,
    natToChars_eq_small (n / 1000) (by omega),
    show n / 10 % 10 = n / 10 % 10 from rfl]
  rfl

/-- Byte comparison of two four-digit renderings (with arbitrary tails)
is decided by the numeric years, falling through to the tails on equal
years. -/
theorem lexLeB_four_digit (n k : Nat) (hn1 : 1000 ≤ n) (hn2 : n ≤ 9999)
    (hk1 : 1000 ≤ k) (hk2 : k ≤ 9999) (s t : List Char) :
    lexLeB (natToChars n ++ s) (natToChars k ++ t) =
      if n < k then true else if k < n then false else lexLeB s t := by
  rw [natToChars_four n hn1 hn2, natToChars_four k hk1 hk2]
  simp only [List.cons_append, List.nil_append]
  rcases Nat.lt_trichotomy (n / 1000) (k / 1000) with h | h | h
  · rw [lexLeB_cons_of_lt (by rw [digit_toNat _ (by omega), digit_toNat _ (by omega)]; omega)]
    rw [if_pos (by omega)]
  · rw [h, lexLeB_cons_self]
    rcases Nat.lt_trichotomy (n / 100 % 10) (k / 100 % 10) with h2 | h2 | h2
    · rw [lexLeB_cons_of_lt (by rw [digit_toNat _ (by omega), digit_toNat _ (by omega)]; omega)]
      rw [if_pos (by omega)]
    · rw [h2, lexLeB_cons_self]
      rcases Nat.lt_trichotomy (n / 10 % 10) (k / 10 % 10) with h3 | h3 | h3
      · rw [lexLeB_cons_of_lt
          (by rw [digit_toNat _ (by omega), digit_toNat _ (by omega)]; omega)]
        rw [if_pos (by omega)]
      · rw [h3, lexLeB_cons_self]
        rcases Nat.lt_trichotomy (n % 10) (k % 10) with h4 | h4 | h4
        · rw [lexLeB_cons_of_lt
            (by rw [digit_toNat _ (by omega), digit_toNat _ (by omega)]; omega)]
          rw [if_pos (by omega)]
        · rw [h4, lexLeB_cons_self]
          rw [if_neg (by omega), if_neg (by omega)]
        · rw [lexLeB_cons_of_gt
            (by rw [digit_toNat _ (by omega), digit_toNat _ (by omega)]; omega)]
          rw [if_neg (by omega), if_pos (by omega)]
      · rw [lexLeB_cons_of_gt
          (by rw [digit_toNat _ (by omega), digit_toNat _ (by omega)]; omega)]
        rw [if_neg (by omega), if_pos (by omega)]
    · rw [lexLeB_cons_of_gt (by rw [digit_toNat _ (by omega), digit_toNat _ (by omega)]; omega)]
      rw [if_neg (by omega), if_pos (by omega)]
  · rw [lexLeB_cons_of_gt (by rw [digit_toNat _ (by omega), digit_toNat _ (by omega)]; omega)]
    rw [if_neg (by omega), if_pos (by omega)]

/-- Any valid padded day is at least the string `"01"`. -/
theorem pad2_ge_01 (dy : Nat) (h1 : 1 ≤ dy) (h2 : dy ≤ 99) :
    lexLeB ['0', '1'] (pad2 dy) = true := by
  by_cases h10 : dy < 10
  · have hp : pad2 dy = ['0', Char.ofNat (48 + dy)] := by
      unfold pad2
      rw [if_pos h10]
    rw [hp, lexLeB_cons_self]
    by_cases h1' : dy = 1
    · subst h1'
      rw [show Char.ofNat (48 + 1) = '1' from rfl, lexLeB_cons_self]
      rfl
    · refine lexLeB_cons_of_lt ?_ _ _
      rw [digit_toNat _ (by omega)]
      have h1n : ('1' : Char).toNat = 49 := rfl
      rw [h1n]
      omega
  · have hp : pad2 dy = natToChars dy := by
      unfold pad2
      rw [if_neg h10]
    rw [hp, natToChars_two dy (by omega) h2]
    refine lexLeB_cons_of_lt ?_ _ _
    rw [digit_toNat _ (by omega)]
    have h0 : ('0' : Char).toNat = 48 := rfl
    rw [h0]
    omega

/-- Any valid padded day is at most the string `"31"`. -/
theorem pad2_le_31 (dy : Nat) (h2 : dy ≤ 31) :
    lexLeB (pad2 dy) ['3', '1'] = true := by
  by_cases h10 : dy < 10
  · have hp : pad2 dy = ['0', Char.ofNat (48 + dy)] := by
      unfold pad2
      rw [if_pos h10]
    rw [hp]
    exact lexLeB_cons_of_lt (by decide) _ _
  · have hp : pad2 dy = natToChars dy := by
      unfold pad2
      rw [if_neg h10]
    rw [hp, natToChars_two dy (by omega) (by omega)]
    by_cases h3 : dy / 10 < 3
    · refine lexLeB_cons_of_lt ?_ _ _
      rw [digit_toNat _ (by omega)]
      have h3n : ('3' : Char).toNat = 51 := rfl
      rw [h3n]
      omega
    · have hdiv : dy / 10 = 3 := by omega
      rw [hdiv, show Char.ofNat (48 + 3) = '3' from rfl, lexLeB_cons_self]
      by_cases hlast : dy % 10 = 1
      · rw [hlast, show Char.ofNat (48 + 1) = '1' from rfl, lexLeB_cons_self]
        rfl
      · refine lexLeB_cons_of_lt ?_ _ _
        rw [digit_toNat _ (by omega)]
        have h1n : ('1' : Char).toNat = 49 := rfl
        rw [h1n]
        omega

/-- Any valid padded month is at most the string `"12"`; on the month
`12` comparison falls through to the given day tails. -/
theorem pad2_month_le_12 (mo : Nat) (h1 : 1 ≤ mo) (h2 : mo ≤ 12) (s t : List Char)
    (hrest : mo = 12 → lexLeB s t = true) :
    lexLeB (pad2 mo ++ s) (['1', '2'] ++ t) = true := by
  by_cases h10 : mo < 10
  · have hp : pad2 mo = ['0', Char.ofNat (48 + mo)] := by
      unfold pad2
      rw [if_pos h10]
    rw [hp]
    simp only [List.cons_append, List.nil_append]
    exact lexLeB_cons_of_lt (by decide) _ _
  · have hp : pad2 mo = natToChars mo := by
      unfold pad2
      rw [if_neg h10]
    have hdiv : mo / 10 = 1 := by omega
    rw [hp, natToChars_two mo (by omega) (by omega), hdiv,
      show Char.ofNat (48 + 1) = '1' from rfl]
    simp only [List.cons_append, List.nil_append]
    rw [lexLeB_cons_self]
    by_cases hlast : mo % 10 = 2
    · rw [hlast, show Char.ofNat (48 + 2) = '2' from rfl, lexLeB_cons_self]
      exact hrest (by omega)
    · refine lexLeB_cons_of_lt ?_ _ _
      rw [digit_toNat _ (by omega)]
      have h2n : ('2' : Char).toNat = 50 := rfl
      rw [h2n]
      omega

/-- Any valid padded month is at least the string `"01"`; on the month
`1` comparison falls through to the given day tails. -/
theorem pad2_month_ge_01 (mo : Nat) (h1 : 1 ≤ mo) (h2 : mo ≤ 12) (s t : List Char)
    (hrest : mo = 1 → lexLeB s t = true) :
    lexLeB (['0', '1'] ++ s) (pad2 mo ++ t) = true := by
  by_cases h10 : mo < 10
  · have hp : pad2 mo = ['0', Char.ofNat (48 + mo)] := by
      unfold pad2
      rw [if_pos h10]
    rw [hp]
    simp only [List.cons_append, List.nil_append]
    rw [lexLeB_cons_self]
    by_cases h1' : mo = 1
    · rw [h1', show Char.ofNat (48 + 1) = '1' from rfl, lexLeB_cons_self]
      exact hrest h1'
    · refine lexLeB_cons_of_lt ?_ _ _
      rw [digit_toNat _ (by omega)]
      have h1n : ('1' : Char).toNat = 49 := rfl
      rw [h1n]
      omega
  · have hp : pad2 mo = natToChars mo := by
      unfold pad2
      rw [if_neg h10]
    rw [hp, natToChars_two mo (by omega) (by omega)]
    simp only [List.cons_append, List.nil_append]
    refine lexLeB_cons_of_lt ?_ _ _
    rw [digit_toNat _ (by omega)]
    have h0 : ('0' : Char).toNat = 48 := rfl
    rw [h0]
    omega

/-- Lower bound: the BSON comparison of the stored ISO string against
the rendered `"{ys}-01-01"` agrees with the numeric year comparison for
four-digit years and valid dates. -/
theorem mongo_year_lb (ys : Int) (dte : YMD)
    (hys1 : 1000 ≤ ys) (hys2 : ys ≤ 9999)
    (hy1 : 1000 ≤ dte.y) (hy2 : dte.y ≤ 9999)
    (hm1 : 1 ≤ dte.m) (hm2 : dte.m ≤ 12) (hd1 : 1 ≤ dte.d) (hd2 : dte.d ≤ 31) :
    lexLeB (intToChars ys ++ ("-01-01".data)) (isoChars dte) =
      decide (ys ≤ (dte.y : Int)) := by
  have hns : intToChars ys = natToChars ys.toNat := by
    unfold intToChars
    rw [if_neg (by omega)]
  rw [hns]
  unfold isoChars
  rw [lexLeB_four_digit ys.toNat dte.y (by omega) (by omega) hy1 hy2]
  by_cases h : ys.toNat < dte.y
  · rw [if_pos h, decide_eq_true (by omega : ys ≤ (dte.y : Int))]
  · rw [if_neg h]
    by_cases h2 : dte.y < ys.toNat
    · rw [if_pos h2]
      have : ¬ ys ≤ (dte.y : Int) := by omega
      simp [this]
    · rw [if_neg h2, decide_eq_true (by omega : ys ≤ (dte.y : Int))]
      rw [show ("-01-01".data) = '-' :: ('0' :: '1' :: '-' :: '0' :: '1' :: []) from rfl]
      rw [lexLeB_cons_self]
      refine pad2_month_ge_01 dte.m hm1 hm2 ('-' :: '0' :: '1' :: []) ('-' :: pad2 dte.d) ?_
      intro _
      rw [lexLeB_cons_self]
      exact pad2_ge_01 dte.d hd1 (by omega)

/-- Upper bound: the BSON comparison of the stored ISO string against
the rendered `"{ye}-12-31"` agrees with the numeric year comparison for
four-digit years and valid dates. -/
theorem mongo_year_ub (ye : Int) (dte : YMD)
    (hye1 : 1000 ≤ ye) (hye2 : ye ≤ 9999)
    (hy1 : 1000 ≤ dte.y) (hy2 : dte.y ≤ 9999)
    (hm1 : 1 ≤ dte.m) (hm2 : dte.m ≤ 12) (_hd1 : 1 ≤ dte.d) (hd2 : dte.d ≤ 31) :
    lexLeB (isoChars dte) (intToChars ye ++ ("-12-31".data)) =
      decide ((dte.y : Int) ≤ ye) := by
  have hns : intToChars ye = natToChars ye.toNat := by
    unfold intToChars
    rw [if_neg (by omega)]
  rw [hns]
  unfold isoChars
  rw [lexLeB_four_digit dte.y ye.toNat hy1 hy2 (by omega) (by omega)]
  by_cases h : dte.y < ye.toNat
  · rw [if_pos h, decide_eq_true (by omega : (dte.y : Int) ≤ ye)]
  · rw [if_neg h]
    by_cases h2 : ye.toNat < dte.y
    · rw [if_pos h2]
      have : ¬ (dte.y : Int) ≤ ye := by omega
      simp [this]
    · rw [if_neg h2, decide_eq_true (by omega : (dte.y : Int) ≤ ye)]
      rw [show ("-12-31".data) = '-' :: ('1' :: '2' :: '-' :: '3' :: '1' :: []) from rfl]
      rw [lexLeB_cons_self]
      refine pad2_month_le_12 dte.m hm1 hm2 ('-' :: pad2 dte.d) ('-' :: '3' :: '1' :: []) ?_
      intro _
      rw [lexLeB_cons_self]
      exact pad2_le_31 dte.d hd2

/-- The document engine's release-date string range test coincides with
the relational `EXTRACT(YEAR ...) BETWEEN` test for four-digit year
bounds and valid stored dates. -/
theorem mongo_year_cond_agree (ys ye : Int) (dte : YMD)
    (hys1 : 1000 ≤ ys) (hys2 : ys ≤ 9999) (hye1 : 1000 ≤ ye) (hye2 : ye ≤ 9999)
    (hy1 : 1000 ≤ dte.y) (hy2 : dte.y ≤ 9999)
    (hm1 : 1 ≤ dte.m) (hm2 : dte.m ≤ 12) (hd1 : 1 ≤ dte.d) (hd2 : dte.d ≤ 31) :
    (lexLeB (intToChars ys ++ ("-01-01".data)) (isoChars dte) &&
      lexLeB (isoChars dte) (intToChars ye ++ ("-12-31".data))) =
      decide (ys ≤ (dte.y : Int) ∧ (dte.y : Int) ≤ ye) := by
  rw [mongo_year_lb ys dte hys1 hys2 hy1 hy2 hm1 hm2 hd1 hd2,
    mongo_year_ub ye dte hye1 hye2 hy1 hy2 hm1 hm2 hd1 hd2]
  simp

/-- With a nonempty movie list, the shape probe of `search_mongo` finds
the loader's array-shaped cast field, and when at most 500 credits match
the actor term the resolved identifiers are exactly the identifiers of
the movies with a matching cast name. -/
theorem mongoActorIds_of_catalog (db : Catalog) (a : List Char)
    (m0 : MovieRec) (ms : List MovieRec) (hmv : db.movies = m0 :: ms)
    (hcap :
      (db.movies.filter (fun m => m.castNames.any (fun c => ciSubstr a c))).length ≤ 500) :
    mongoActorIds a (mongoOf db).credits =
      (db.movies.filter (fun m => m.castNames.any (fun c => ciSubstr a c))).map
        (fun m => m.movieId) := by
  unfold mongoActorIds mongoOf
  dsimp only
  rw [hmv] at hcap ⊢
  have hdet : castShapeIsArray ((m0 :: ms).map mongoCreditDoc) = true := rfl
  rw [hdet]
  have hfil : ((m0 :: ms).map mongoCreditDoc).filter (creditMatches a true) =
      ((m0 :: ms).filter (fun m => m.castNames.any (fun c => ciSubstr a c))).map
        mongoCreditDoc := by
    rw [List.filter_map]
    congr 1
  rw [hfil, List.take_of_length_le (by rw [List.length_map]; exact hcap),
    List.filterMap_map]
  rw [show ((fun c : CreditDoc => c.id) ∘ mongoCreditDoc) =
    (some ∘ (fun m : MovieRec => m.movieId)) from rfl]
  rw [List.filterMap_eq_map]

/-- For documents derived from the catalog, the `$sort` comparator
coincides with the relational `ORDER BY` comparator. -/
theorem mongoOrder_eq_pgOrder (f : SearchFilter) (db : Catalog) (a b : MovieRec) :
    mongoOrder f (mongoEnrich (mongoOf db).ratings (mongoMovieDoc a))
      (mongoEnrich (mongoOf db).ratings (mongoMovieDoc b)) = pgOrder f db.ratings a b := by
  rw [mongoOrder, pgOrder, mongoEnrich_of_catalog, mongoEnrich_of_catalog]
  rfl

/-- Whenever the reached `$match` stage agrees with the relational
`WHERE` clause movie by movie, the two pipelines list the same movie
identifiers in the same order. -/
theorem pipeline_ids_eq (f : SearchFilter) (db : Catalog) (idsOpt : Option (List Nat))
    (hq : ∀ m ∈ db.movies, mongoMatch f idsOpt (mongoMovieDoc m) = pgWhere f m) :
    (mongoPipeline f idsOpt (mongoOf db)).map (fun r => r.movie_id) =
      (search_postgres f db).map (fun r => some r.movie_id) := by
  unfold mongoPipeline search_postgres
  have h1 : (mongoOf db).movies.filter (mongoMatch f idsOpt) =
      (db.movies.filter (pgWhere f)).map mongoMovieDoc := by
    show (db.movies.map mongoMovieDoc).filter (mongoMatch f idsOpt) = _
    rw [List.filter_map]
    congr 1
    exact List.filter_congr (fun m hm => hq m hm)
  rw [h1]
  simp only [List.map_map]
  rw [← List.map_insertionSort (fun a b => pgOrder f db.ratings a b = true)
    (fun a b => mongoOrder f a b = true)
    (mongoEnrich (mongoOf db).ratings ∘ mongoMovieDoc) (db.movies.filter (pgWhere f))
    (fun a _ b _ => by simp only [Function.comp_apply, mongoOrder_eq_pgOrder f db a b])]
  rw [← List.map_take]
  simp only [List.map_map]
  rfl

/-- Movie-by-movie agreement of the reached `$match` stage with the
relational `WHERE` clause, under the consistency hypotheses: equal title
fields, four-digit years with valid dates when a year range is active,
and an identifier restriction that coincides with cast-name matching
when an actor term is active. -/
theorem mongoMatch_eq_pgWhere (f : SearchFilter) (db : Catalog) (idsOpt : Option (List Nat))
    (htitle : ∀ m ∈ db.movies, m.originalTitle = m.title)
    (hyear : (truthyInt f.year_start && truthyInt f.year_end) = true →
      (1000 ≤ f.year_start.getD 0 ∧ f.year_start.getD 0 ≤ 9999 ∧
        1000 ≤ f.year_end.getD 0 ∧ f.year_end.getD 0 ≤ 9999) ∧
      (∀ m ∈ db.movies, ∀ dte, m.released = some dte →
        1000 ≤ dte.y ∧ dte.y ≤ 9999 ∧ 1 ≤ dte.m ∧ dte.m ≤ 12 ∧ 1 ≤ dte.d ∧ dte.d ≤ 31))
    (hactor :
      (truthyStr f.actor = false ∧ idsOpt = none) ∨
      (truthyStr f.actor = true ∧ ∃ ids, idsOpt = some ids ∧ ids ≠ [] ∧
        ∀ m ∈ db.movies,
          ids.contains m.movieId =
            m.castNames.any (fun c => ciSubstr (f.actor.getD []) c))) :
    ∀ m ∈ db.movies, mongoMatch f idsOpt (mongoMovieDoc m) = pgWhere f m := by
  intro m hm
  unfold mongoMatch pgWhere mongoMovieDoc
  dsimp only
  rw [Bool.and_right_comm]
  congr 1
  · congr 1
    · by_cases ht : truthyStr f.title = true
      · rw [if_pos ht, if_pos ht, htitle m hm, Bool.or_self]
      · rw [if_neg ht, if_neg ht]
    · rcases hactor with ⟨ha, rfl⟩ | ⟨ha, ids, rfl, hne, hmem⟩
      · have ha' : ¬ truthyStr f.actor = true := by rw [ha]; exact Bool.false_ne_true
        rw [if_neg ha']
      · have hE : ids.isEmpty = false := by
          cases ids with
          | nil => exact absurd rfl hne
          | cons x t => rfl
        simp only [hE, Bool.false_eq_true, if_false]
        rw [hmem m hm, if_pos ha]
  · by_cases hy : (truthyInt f.year_start && truthyInt f.year_end) = true
    · obtain ⟨⟨hys1, hys2, hye1, hye2⟩, hval⟩ := hyear hy
      rw [if_pos hy, if_pos hy]
      cases hrel : m.released with
      | none => rfl
      | some dte =>
        obtain ⟨hv1, hv2, hv3, hv4, hv5, hv6⟩ := hval m hm dte hrel
        show (lexLeB (intToChars (f.year_start.getD 0) ++ ("-01-01".data)) (isoChars dte) &&
            lexLeB (isoChars dte) (intToChars (f.year_end.getD 0) ++ ("-12-31".data))) =
          decide (f.year_start.getD 0 ≤ (dte.y : Int) ∧ (dte.y : Int) ≤ f.year_end.getD 0)
        rw [mongo_year_cond_agree (f.year_start.getD 0) (f.year_end.getD 0) dte
          hys1 hys2 hye1 hye2 hv1 hv2 hv3 hv4 hv5 hv6]
    · rw [if_neg hy, if_neg hy]

/-! ### C1 -/

/-- A one-movie catalog whose document-side `original_title` differs
from the relational `title` column. -/
def catTitleMismatch : Catalog :=
  { movies := [{ movieId := 1, title := ("A".data), originalTitle := ("B".data),
                 released := none, popularity := none, genres := [], castNames := [] }]
    ratings := [] }

/-- A canonical filter searching for the title term `"B"`. -/
def titleBFilter : SearchFilter := { emptyFilter with title := some ("B".data) }

/-- C1 counterexample: with consistent data (both engines loaded from the
same source row) whose `original_title` is `"B"` while the single
relational title column is `"A"`, the title filter `"B"` matches the
movie in the document strategy (which regexes both title fields) but
not in the relational strategy (which only tests `m.title`), so the two
result sets differ.
-/
theorem c1_counterexample :
    (search_postgres titleBFilter catTitleMismatch).map (fun r => r.movie_id) = [] ∧
    (search_mongo titleBFilter (mongoOf catTitleMismatch)).rows.map (fun r => r.movie_id) =
      [some 1] :=
  ⟨by decide, by decide⟩

/-- C1 amended: for a fixed canonical filter, the two strategies return the
same movie identifiers — in fact the same identifier list — provided the
consistent data additionally satisfies: distinct movie identifiers;
every movie's `original_title` equals its `title` (otherwise the
document strategy matches title terms against the extra field); when a
year range is active, the bounds and all stored release years are
four-digit with valid months and days (otherwise the string range
comparison diverges from the numeric one); and an active actor term
matches at most 500 credits documents (otherwise the document strategy
truncates its identifier resolution).
-/
theorem c1_amended_equiv (f : SearchFilter) (db : Catalog)
    (hids : (db.movies.map (fun m => m.movieId)).Nodup)
    (htitle : ∀ m ∈ db.movies, m.originalTitle = m.title)
    (hyear : (truthyInt f.year_start && truthyInt f.year_end) = true →
      (1000 ≤ f.year_start.getD 0 ∧ f.year_start.getD 0 ≤ 9999 ∧
        1000 ≤ f.year_end.getD 0 ∧ f.year_end.getD 0 ≤ 9999) ∧
      (∀ m ∈ db.movies, ∀ dte, m.released = some dte →
        1000 ≤ dte.y ∧ dte.y ≤ 9999 ∧ 1 ≤ dte.m ∧ dte.m ≤ 12 ∧ 1 ≤ dte.d ∧ dte.d ≤ 31))
    (hcap : truthyStr f.actor = true →
      (db.movies.filter (fun m =>
        m.castNames.any (fun c => ciSubstr (f.actor.getD []) c))).length ≤ 500) :
    (search_mongo f (mongoOf db)).rows.map (fun r => r.movie_id) =
      (search_postgres f db).map (fun r => some r.movie_id) := by
  by_cases ha : truthyStr f.actor = true
  · cases hmv : db.movies with
    | nil =>
      have h1 : mongoActorIds (f.actor.getD []) (mongoOf db).credits = [] := by
        unfold mongoActorIds mongoOf
        rw [hmv]
        rfl
      have h2 : search_postgres f db = [] := by
        unfold search_postgres
        rw [hmv]
        simp
      have h3 : (search_mongo f (mongoOf db)).rows = [] := by
        unfold search_mongo
        rw [if_pos ha]
        rw [h1]
        rfl
      rw [h2, h3]
      rfl
    | cons m0 ms =>
      have hres := mongoActorIds_of_catalog db (f.actor.getD []) m0 ms hmv (hcap ha)
      by_cases hz : (db.movies.filter (fun m =>
          m.castNames.any (fun c => ciSubstr (f.actor.getD []) c))) = []
      · have hids0 : mongoActorIds (f.actor.getD []) (mongoOf db).credits = [] := by
          rw [hres, hz]
          rfl
        have h1 : (search_mongo f (mongoOf db)).rows = [] := by
          unfold search_mongo
          rw [if_pos ha, hids0]
          rfl
        have hpgnil : db.movies.filter (pgWhere f) = [] := by
          rw [List.filter_eq_nil_iff]
          intro m hm
          have hcast : (m.castNames.any (fun c => ciSubstr (f.actor.getD []) c)) = false :=
            Bool.eq_false_iff.mpr (List.filter_eq_nil_iff.mp hz m hm)
          intro hq
          simp [pgWhere, ha, hcast] at hq
        have h2 : search_postgres f db = [] := by
          unfold search_postgres
          rw [hpgnil]
          simp
        rw [h1, h2]
        rfl
      · have hneq : mongoActorIds (f.actor.getD []) (mongoOf db).credits ≠ [] := by
          rw [hres]
          intro hcontra
          exact hz (List.map_eq_nil_iff.mp hcontra)
        have hE : (mongoActorIds (f.actor.getD []) (mongoOf db).credits).isEmpty = false := by
          cases hc : mongoActorIds (f.actor.getD []) (mongoOf db).credits with
          | nil => exact absurd hc hneq
          | cons x t => rfl
        have hrows : (search_mongo f (mongoOf db)).rows =
            mongoPipeline f (some (mongoActorIds (f.actor.getD []) (mongoOf db).credits))
              (mongoOf db) := by
          unfold search_mongo
          rw [if_pos ha]
          dsimp only
          rw [hE]
          rfl
        have hmem : ∀ m ∈ db.movies,
            (mongoActorIds (f.actor.getD []) (mongoOf db).credits).contains m.movieId =
              m.castNames.any (fun c => ciSubstr (f.actor.getD []) c) := by
          intro m hm
          rw [hres]
          by_cases hc : (m.castNames.any (fun c => ciSubstr (f.actor.getD []) c)) = true
          · rw [hc]
            exact List.elem_iff.mpr
              (List.mem_map_of_mem _ (List.mem_filter.mpr ⟨hm, hc⟩))
          · rw [Bool.eq_false_iff.mpr hc]
            cases hcon : ((db.movies.filter (fun m =>
                m.castNames.any (fun c => ciSubstr (f.actor.getD []) c))).map
                  (fun m => m.movieId)).contains m.movieId with
            | false => rfl
            | true =>
              obtain ⟨m', hm', heq⟩ := List.mem_map.mp (List.elem_iff.mp hcon)
              have hm'mv : m' ∈ db.movies := List.mem_of_mem_filter hm'
              have hmm' : m' = m := List.inj_on_of_nodup_map hids hm'mv hm heq
              rw [hmm'] at hm'
              exact absurd (List.mem_filter.mp hm').2 hc
        rw [hrows]
        exact pipeline_ids_eq f db _
          (mongoMatch_eq_pgWhere f db _ htitle hyear
            (Or.inr ⟨ha, mongoActorIds (f.actor.getD []) (mongoOf db).credits, rfl,
              hneq, hmem⟩))
  · have hrows : (search_mongo f (mongoOf db)).rows = mongoPipeline f none (mongoOf db) := by
      unfold search_mongo
      rw [if_neg ha]
    rw [hrows]
    exact pipeline_ids_eq f db none
      (mongoMatch_eq_pgWhere f db none htitle hyear
        (Or.inl ⟨Bool.eq_false_iff.mpr ha, rfl⟩))

/-- Witness for the amended C1: on `catTwo` (equal title fields,
distinct identifiers, no year range, no actor term) both engines return
the identifier list `[1, 2]`. -/
theorem c1_amended_equiv_witness :
    ((catTwo.movies.map (fun m => m.movieId)).Nodup ∧
      (∀ m ∈ catTwo.movies, m.originalTitle = m.title)) ∧
    (search_mongo emptyFilter (mongoOf catTwo)).rows.map (fun r => r.movie_id) =
      (search_postgres emptyFilter catTwo).map (fun r => some r.movie_id) :=
  ⟨⟨by decide, by decide⟩,
    c1_amended_equiv emptyFilter catTwo (by decide) (by decide)
      (fun h => absurd h (by decide)) (fun h => absurd h (by decide))⟩

end MovieApp
